import Mathlib

/-!
Shallow embedding of the repository `esip-summer-2021-geospatial-ml`
(two teaching notebooks for geospatial ML plus an Azure/Helm deployment
configuration), and theorems settling a frozen list of claims about its
natural-language specification.

The repository's own logic is small:
* `find_match` and `get_item` in the training notebook (selecting a
  Sentinel-2 scene for a label chip, loading and normalising imagery);
* `option_handler` inside `deploy/config.yaml` (dask-gateway cluster
  options validation and resource bounds);
* the deploy `Makefile` targets (shelling out to `az` and `helm`);
* the Helm values file `deploy/config.yaml`.

Third-party library behaviour (shapely geometry, rioxarray/stackstac
raster I/O, dask's scheduler) is modelled by explicit oracle parameters
or by concrete executable models noted at each definition; the
repository's own logic is translated faithfully from the source.
-/

namespace EsipGeoML

/-! ## Executable rational arithmetic

The notebooks compute with Python floats; we embed those computations in
exact rational arithmetic.  Mathlib's `ℚ` multiplication, subtraction and
division are `@[irreducible]`, so concrete witnesses could not be checked
by the kernel through them.  The helpers below implement the same
operations through `Rat.divInt` (which the kernel can evaluate) and are
proved equal to the standard operations, so every definition below that
uses them is extensionally the textbook rational operation. -/

/-- Kernel-evaluable rational multiplication; equals `a * b`
(see `ratMul_eq`). -/
def ratMul (a b : ℚ) : ℚ := Rat.divInt (a.num * b.num) (a.den * b.den)

/-- Kernel-evaluable rational subtraction; equals `a - b`
(see `ratSub_eq`). -/
def ratSub (a b : ℚ) : ℚ := Rat.divInt (a.num * b.den - a.den * b.num) (a.den * b.den)

/-- Kernel-evaluable rational division; equals `a / b` (see `ratDiv_eq`;
like `ℚ` division it sends division by zero to zero). -/
def ratDiv (a b : ℚ) : ℚ := Rat.divInt (a.num * b.den) (a.den * b.num)

theorem ratMul_eq (a b : ℚ) : ratMul a b = a * b := by
  rw [ratMul, Rat.divInt_eq_div]
  push_cast
  conv_rhs => rw [← Rat.num_div_den a, ← Rat.num_div_den b]
  rw [div_mul_div_comm]

theorem ratSub_eq (a b : ℚ) : ratSub a b = a - b := by
  have ha : ((a.den : ℚ)) ≠ 0 := Nat.cast_ne_zero.mpr a.den_nz
  have hb : ((b.den : ℚ)) ≠ 0 := Nat.cast_ne_zero.mpr b.den_nz
  rw [ratSub, Rat.divInt_eq_div]
  push_cast
  conv_rhs => rw [← Rat.num_div_den a, ← Rat.num_div_den b]
  rw [div_sub_div _ _ ha hb]

theorem ratDiv_eq (a b : ℚ) : ratDiv a b = a / b := by
  rcases eq_or_ne b 0 with rfl | hb
  · simp [ratDiv]
  · have ha : ((a.den : ℚ)) ≠ 0 := Nat.cast_ne_zero.mpr a.den_nz
    have hbn : ((b.num : ℚ)) ≠ 0 := by
      exact_mod_cast Rat.num_ne_zero.mpr hb
    have hbd : ((b.den : ℚ)) ≠ 0 := Nat.cast_ne_zero.mpr b.den_nz
    have hna : (a.num : ℚ) = a * a.den :=
      (div_eq_iff ha).mp (Rat.num_div_den a)
    have hnb : (b.num : ℚ) = b * b.den :=
      (div_eq_iff hbd).mp (Rat.num_div_den b)
    rw [ratDiv, Rat.divInt_eq_div]
    push_cast
    rw [div_eq_div_iff (by exact mul_ne_zero ha hbn) hb, hna, hnb]
    ring

/-! ## Geometry model

The notebook delegates geometry to `shapely`. We model the shapes the
notebook manipulates (STAC item geometries) as axis-aligned boxes with
rational coordinates; `shapely`'s `.area` and `.intersection(...).area`
become exact rational computations. The repository logic layered on top
(the overlap-fraction filter and the cloud-cover sort in `find_match`)
is translated verbatim. -/

structure Shape where
  x0 : ℚ
  y0 : ℚ
  x1 : ℚ
  y1 : ℚ
  deriving Repr, DecidableEq

/-- `shapely` area of an axis-aligned box: `(x1 - x0) * (y1 - y0)`. -/
def Shape.area (s : Shape) : ℚ :=
  ratMul (ratSub s.x1 s.x0) (ratSub s.y1 s.y0)

/-- `shapely` `a.intersection(b).area` for axis-aligned boxes:
the product of the overlaps of the two coordinate intervals. -/
def intersectionArea (a b : Shape) : ℚ :=
  ratMul (max 0 (ratSub (min a.x1 b.x1) (max a.x0 b.x0)))
    (max 0 (ratSub (min a.y1 b.y1) (max a.y0 b.y0)))

/-- A label STAC item: the notebook reads its `geometry` (via
`shapely.geometry.shape`) and its `labels` asset href.  The asset href is
kept abstract as an identifier. -/
structure LabelItem where
  geometry : Shape
  labelsHref : String
  deriving Repr, DecidableEq

/-- A Sentinel-2 STAC item: the notebook reads its `geometry` and its
EO-extension `cloud_cover` (assumed present, as in the data the notebook
runs on; a missing cloud cover would make Python's `sorted` fail, which
is outside the claims). -/
structure SentinelItem where
  geometry : Shape
  cloudCover : ℚ
  deriving Repr, DecidableEq

/-! ## `find_match` (training notebook)

Source:
```
def find_match(label_item, sentinel_items):
    label_shape = shapely.geometry.shape(label_item.geometry)
    items2 = [
        item for item in sentinel_items
        if (shapely.geometry.shape(item.geometry).intersection(label_shape).area
            / label_shape.area) > 0.9
    ]
    sentinel_item = sorted(
        items2, key=lambda item: pystac.extensions.eo.EOExtension.ext(item).cloud_cover
    )[0]
    return sentinel_item
```
Python's `sorted` is a stable sort by the key; `[0]` on an empty list
raises `IndexError`, which we model as `none`. -/

/-- Overlap fraction of a sentinel item's geometry with the label shape,
as computed inside the list comprehension of `find_match`:
`item.geometry.intersection(label_shape).area / label_shape.area`. -/
def overlapFraction (labelShape : Shape) (item : SentinelItem) : ℚ :=
  ratDiv (intersectionArea item.geometry labelShape) labelShape.area

/-- The threshold `0.9` of `find_match` (`mkRat 9 10 = 9 / 10`,
see `overlapThreshold_eq`). -/
def overlapThreshold : ℚ := mkRat 9 10

theorem overlapThreshold_eq : overlapThreshold = 9 / 10 := by
  rw [overlapThreshold, Rat.mkRat_eq_div]
  norm_num

/-- The filtered candidate list `items2` of `find_match`. -/
def qualifyingItems (labelItem : LabelItem) (sentinelItems : List SentinelItem) :
    List SentinelItem :=
  sentinelItems.filter fun item =>
    overlapFraction labelItem.geometry item > overlapThreshold

/-- Stable insertion step for sorting by `cloud_cover` (ties keep the
earlier element first, as Python's stable `sorted` does). -/
def insertByCloudCover (x : SentinelItem) : List SentinelItem → List SentinelItem
  | [] => [x]
  | y :: ys =>
    if x.cloudCover ≤ y.cloudCover then x :: y :: ys else y :: insertByCloudCover x ys

/-- Python's `sorted(items2, key=lambda item: ... cloud_cover)`: a stable
sort by cloud cover. -/
def sortByCloudCover : List SentinelItem → List SentinelItem
  | [] => []
  | x :: xs => insertByCloudCover x (sortByCloudCover xs)

/-- `find_match`: filter sentinel items to those whose geometry covers
more than 0.9 of the label shape, sort by cloud cover, take the first.
`none` models the `IndexError` raised by `[0]` on an empty list. -/
def findMatch (labelItem : LabelItem) (sentinelItems : List SentinelItem) :
    Option SentinelItem :=
  (sortByCloudCover (qualifyingItems labelItem sentinelItems)).head?

/-! ### Lemmas about the stable cloud-cover sort -/

theorem insertByCloudCover_ne_nil (x : SentinelItem) (l : List SentinelItem) :
    insertByCloudCover x l ≠ [] := by
  cases l with
  | nil => simp [insertByCloudCover]
  | cons y ys =>
    simp only [insertByCloudCover]
    split <;> simp

theorem sortByCloudCover_eq_nil {l : List SentinelItem} :
    sortByCloudCover l = [] ↔ l = [] := by
  cases l with
  | nil => simp [sortByCloudCover]
  | cons x xs =>
    simp only [sortByCloudCover]
    constructor
    · intro h
      exact absurd h (insertByCloudCover_ne_nil x _)
    · intro h
      exact absurd h (List.cons_ne_nil x xs)

theorem mem_insertByCloudCover {z x : SentinelItem} {l : List SentinelItem} :
    z ∈ insertByCloudCover x l ↔ z = x ∨ z ∈ l := by
  induction l with
  | nil => simp [insertByCloudCover]
  | cons y ys ih =>
    simp only [insertByCloudCover]
    split
    · simp [List.mem_cons]
    · simp only [List.mem_cons, ih]
      tauto

theorem mem_sortByCloudCover {z : SentinelItem} {l : List SentinelItem} :
    z ∈ sortByCloudCover l ↔ z ∈ l := by
  induction l with
  | nil => simp [sortByCloudCover]
  | cons x xs ih =>
    simp [sortByCloudCover, mem_insertByCloudCover, ih, List.mem_cons]

/-- The head of the cloud-cover sort is an element of the input of
minimal cloud cover. -/
theorem sortByCloudCover_head_min :
    ∀ {l : List SentinelItem} {s : SentinelItem},
      (sortByCloudCover l).head? = some s →
      s ∈ l ∧ ∀ t ∈ l, s.cloudCover ≤ t.cloudCover := by
  intro l
  induction l with
  | nil => intro s h; simp [sortByCloudCover] at h
  | cons x xs ih =>
    intro s h
    simp only [sortByCloudCover] at h
    rcases hxs : sortByCloudCover xs with _ | ⟨y, ys⟩
    · rw [hxs] at h
      simp only [insertByCloudCover, List.head?_cons, Option.some.injEq] at h
      subst h
      have hxe : xs = [] := sortByCloudCover_eq_nil.mp hxs
      subst hxe
      refine ⟨List.mem_cons_self x [], ?_⟩
      intro t ht
      rcases List.mem_cons.mp ht with rfl | ht
      · exact le_refl _
      · simp at ht
    · rw [hxs] at h
      obtain ⟨hymem, hymin⟩ :=
        ih (show (sortByCloudCover xs).head? = some y by rw [hxs]; rfl)
      simp only [insertByCloudCover] at h
      split at h
      · next hle =>
        simp only [List.head?_cons, Option.some.injEq] at h
        subst h
        refine ⟨List.mem_cons_self x xs, ?_⟩
        intro t ht
        rcases List.mem_cons.mp ht with rfl | ht
        · exact le_refl _
        · exact le_trans hle (hymin t ht)
      · next hnle =>
        simp only [List.head?_cons, Option.some.injEq] at h
        subst h
        refine ⟨List.mem_cons_of_mem x hymem, ?_⟩
        intro t ht
        rcases List.mem_cons.mp ht with rfl | ht
        · exact le_of_not_le hnle
        · exact hymin t ht

/-! ### Concrete inputs used as witnesses and counterexamples -/

/-- A concrete label chip: the unit of the C1 demonstration. -/
def lblC1 : LabelItem := ⟨⟨0, 0, 10, 10⟩, "chip-c1"⟩

/-- A sentinel scene fully covering `lblC1`, cloud cover 50. -/
def sentinelC1A : SentinelItem := ⟨⟨0, 0, 10, 10⟩, 50⟩

/-- A sentinel scene fully covering `lblC1`, cloud cover 10. -/
def sentinelC1B : SentinelItem := ⟨⟨0, 0, 10, 10⟩, 10⟩

/-- A concrete label chip for the C4 witness. -/
def lblC4 : LabelItem := ⟨⟨0, 0, 2, 2⟩, "chip-c4"⟩

/-- A sentinel scene fully covering `lblC4`, cloud cover 30. -/
def sentinelC4A : SentinelItem := ⟨⟨0, 0, 2, 2⟩, 30⟩

/-- A sentinel scene covering only half of `lblC4` (overlap fraction
`1/2 ≤ 0.9`), cloud cover 5. -/
def sentinelC4B : SentinelItem := ⟨⟨0, 0, 1, 2⟩, 5⟩

/-! ### Claims C1 and C4 -/

/-- C4: for every label item (with nondegenerate geometry, as in the
data: a zero-area label shape would make Python raise a
`ZeroDivisionError` before reaching the indexing) and every candidate
list, `find_match` raises `IndexError` (returns `none`) exactly when no
candidate covers more than 0.9 of the label shape, and otherwise returns
a candidate that covers more than 0.9 of the label shape and has minimal
cloud cover among all such qualifying candidates. -/
theorem find_match_correct (labelItem : LabelItem) (sentinelItems : List SentinelItem)
    (hpos : 0 < labelItem.geometry.area) :
    (findMatch labelItem sentinelItems = none ↔
      qualifyingItems labelItem sentinelItems = []) ∧
    ∀ s, findMatch labelItem sentinelItems = some s →
      (s ∈ sentinelItems ∧ overlapFraction labelItem.geometry s > 9/10) ∧
      ∀ t ∈ sentinelItems, overlapFraction labelItem.geometry t > 9/10 →
        s.cloudCover ≤ t.cloudCover := by
  constructor
  · rw [findMatch, List.head?_eq_none_iff]
    exact sortByCloudCover_eq_nil
  · intro s hs
    simp only [findMatch] at hs
    obtain ⟨hmem, hmin⟩ := sortByCloudCover_head_min hs
    have hq := hmem
    rw [qualifyingItems, List.mem_filter] at hq
    refine ⟨⟨hq.1, by simpa [overlapThreshold_eq] using hq.2⟩, ?_⟩
    intro t ht hqt
    refine hmin t ?_
    rw [qualifyingItems, List.mem_filter]
    exact ⟨ht, by simpa [overlapThreshold_eq] using hqt⟩

/-- Witness for `find_match_correct` at a concrete label chip and
candidate list (one fully covering scene, one half-covering scene). -/
theorem find_match_correct_witness :
    0 < lblC4.geometry.area ∧
    ((findMatch lblC4 [sentinelC4A, sentinelC4B] = none ↔
      qualifyingItems lblC4 [sentinelC4A, sentinelC4B] = []) ∧
    ∀ s, findMatch lblC4 [sentinelC4A, sentinelC4B] = some s →
      (s ∈ [sentinelC4A, sentinelC4B] ∧
        overlapFraction lblC4.geometry s > 9/10) ∧
      ∀ t ∈ [sentinelC4A, sentinelC4B],
        overlapFraction lblC4.geometry t > 9/10 →
          s.cloudCover ≤ t.cloudCover) :=
  ⟨by decide, find_match_correct lblC4 [sentinelC4A, sentinelC4B] (by decide)⟩

/-- C1 counterexample: the claim says no repository-defined selection
algorithm runs between the library calls; if that held, `find_match`
would simply hand back the catalog's candidate list unchanged (its first
element).  On a concrete input the repository's own filter-and-sort logic
instead selects the lower-cloud-cover second candidate. -/
theorem workflow_not_pure_library_calls :
    findMatch lblC1 [sentinelC1A, sentinelC1B] = some sentinelC1B ∧
    [sentinelC1A, sentinelC1B].head? = some sentinelC1A ∧
    sentinelC1B ≠ sentinelC1A := by
  decide

/-- C1 amended: the notebooks' workflow is library calls except for the
repository-defined helpers: `find_match` implements its own selection
algorithm, returning one of the candidate scenes and only one whose
geometry covers strictly more than 0.9 of the label shape (and `get_item`
applies its own scaling/clipping transformation). -/
theorem find_match_repo_selection (labelItem : LabelItem)
    (sentinelItems : List SentinelItem) (s : SentinelItem)
    (h : findMatch labelItem sentinelItems = some s) :
    s ∈ sentinelItems ∧ overlapFraction labelItem.geometry s > 9/10 := by
  simp only [findMatch] at h
  obtain ⟨hmem, -⟩ := sortByCloudCover_head_min h
  rw [qualifyingItems, List.mem_filter] at hmem
  exact ⟨hmem.1, by simpa [overlapThreshold_eq] using hmem.2⟩

/-- Witness for `find_match_repo_selection` at a concrete input. -/
theorem find_match_repo_selection_witness :
    sentinelC1B ∈ [sentinelC1A, sentinelC1B] ∧
    overlapFraction lblC1.geometry sentinelC1B > 9/10 :=
  find_match_repo_selection lblC1 [sentinelC1A, sentinelC1B] sentinelC1B
    (by decide)

/-! ## `option_handler` (deploy/config.yaml, dask-gateway `extraConfig`)

Source (embedded Python in the Helm values file):
```
def option_handler(options):
    if ":" not in options.image:
        raise ValueError("When specifying an image you must also provide a tag")
    return {
        "worker_cores": 0.88 * min(options.worker_cores / 2, 1),
        "worker_cores_limit": options.worker_cores,
        "worker_memory": "%fG" % (0.95 * options.worker_memory),
        "worker_memory_limit": "%fG" % options.worker_memory,
        "image": options.image,
        "environment": options.environment,
    }
```
The `raise ValueError` is modelled as `Except.error` carrying the message.
The two memory entries are rendered as `"...G"` strings in the source; we
model the numeric values they carry. `":" in s` on a one-character needle
is character membership, modelled over the string's character list. -/

/-- The options record handed to `option_handler` (fields as declared in
the `Options(...)` block of the config: two floats, an image string and
an environment mapping). -/
structure ClusterOptions where
  workerCores : ℚ
  workerMemory : ℚ
  image : String
  environment : List (String × String)
  deriving Repr, DecidableEq

/-- The mapping returned by `option_handler`. -/
structure WorkerConfig where
  workerCores : ℚ
  workerCoresLimit : ℚ
  workerMemory : ℚ
  workerMemoryLimit : ℚ
  image : String
  environment : List (String × String)
  deriving Repr, DecidableEq

/-- Python's `":" in s` for the one-character needle `":"`. -/
def strContainsChar (s : String) (c : Char) : Bool := s.data.contains c

deriving instance DecidableEq for Except

/-- The constant `0.88` of `option_handler` (see `mkRat_88_100`). -/
theorem mkRat_88_100 : (mkRat 88 100 : ℚ) = 88/100 := by
  rw [Rat.mkRat_eq_div]; norm_num

/-- The constant `0.95` of `option_handler` (see `mkRat_95_100`). -/
theorem mkRat_95_100 : (mkRat 95 100 : ℚ) = 95/100 := by
  rw [Rat.mkRat_eq_div]; norm_num

/-- `option_handler`: validate that the image carries a tag, then return
the bounded worker resource mapping. -/
def optionHandler (options : ClusterOptions) : Except String WorkerConfig :=
  if ¬ strContainsChar options.image ':' then
    Except.error "When specifying an image you must also provide a tag"
  else
    Except.ok
      { workerCores := ratMul (mkRat 88 100) (min (ratDiv options.workerCores 2) 1)
        workerCoresLimit := options.workerCores
        workerMemory := ratMul (mkRat 95 100) options.workerMemory
        workerMemoryLimit := options.workerMemory
        image := options.image
        environment := options.environment }

/-- Whether a handler result is a success (no exception raised). -/
def exceptIsOk : Except String WorkerConfig → Bool
  | .ok _ => true
  | .error _ => false

/-- Options whose image string has no `':'`: `option_handler` raises on
them. -/
def badImageOpts : ClusterOptions := ⟨1, 2, "pangeo", []⟩

/-- Options with a properly tagged image. -/
def detOpts : ClusterOptions := ⟨4, 8, "img:tag", [("A", "B")]⟩

/-! ### Claims C2, C3, C5 -/

/-- C2 counterexample: the claim says no code path belonging to the
repository raises an error beyond library defaults; but `option_handler`
(repository code embedded in `deploy/config.yaml`) explicitly raises its
own `ValueError` on a concrete untagged image. -/
theorem repo_code_raises_own_error :
    optionHandler badImageOpts =
      Except.error "When specifying an image you must also provide a tag" := rfl

/-- `option_handler`'s only error is the image-tag `ValueError`, raised
exactly when the image string contains no `':'`. -/
theorem option_handler_error_message (options : ClusterOptions) :
    (∀ e, optionHandler options = Except.error e →
      e = "When specifying an image you must also provide a tag") ∧
    (exceptIsOk (optionHandler options) = strContainsChar options.image ':') := by
  cases hB : strContainsChar options.image ':' with
  | false =>
    refine ⟨fun e he => ?_, ?_⟩
    · simp only [optionHandler, hB] at he
      simp at he
      exact he.symm
    · simp [optionHandler, hB, exceptIsOk]
  | true =>
    refine ⟨fun e he => ?_, ?_⟩
    · simp [optionHandler, hB] at he
    · simp [optionHandler, hB, exceptIsOk]

/-- C3 counterexample: the claim says every repository-defined function's
output depends on live third-party services or nondeterministic training;
but `option_handler` is a pure function of its argument: at a concrete
input its output is this fixed concrete value, involving no external
service. -/
theorem repo_logic_is_deterministic :
    optionHandler detOpts =
      Except.ok ⟨mkRat 22 25, 4, mkRat 38 5, 8, "img:tag", [("A", "B")]⟩ := by
  decide

/-- C3 amended: the notebooks' data-loading outputs do depend on live
catalogs and model training is nondeterministic, but the repository does
own deterministic logic: `option_handler` depends only on its input
fields — two calls that agree on every field return equal outputs. -/
theorem option_handler_deterministic (o o' : ClusterOptions)
    (hc : o.workerCores = o'.workerCores)
    (hm : o.workerMemory = o'.workerMemory)
    (hi : o.image = o'.image)
    (he : o.environment = o'.environment) :
    optionHandler o = optionHandler o' := by
  cases o
  cases o'
  cases hc
  cases hm
  cases hi
  cases he
  rfl

/-- Witness for `option_handler_deterministic`: two runs on equal
concrete inputs return equal outputs. -/
theorem option_handler_deterministic_witness :
    optionHandler detOpts = optionHandler ⟨4, 8, "img:tag", [("A", "B")]⟩ :=
  option_handler_deterministic detOpts ⟨4, 8, "img:tag", [("A", "B")]⟩
    rfl rfl rfl rfl

/-- C5: for in-range worker cores and memory and a tagged image,
`option_handler` succeeds and the returned mapping's requests never
exceed its limits: `worker_cores = 0.88 * min(worker_cores / 2, 1)` is at
most `worker_cores_limit` (the requested cores) and `worker_memory =
0.95 *` the requested memory is at most `worker_memory_limit` (the
requested memory). -/
theorem option_handler_requests_le_limits (o : ClusterOptions)
    (hc1 : 1 ≤ o.workerCores) (hc2 : o.workerCores ≤ 16)
    (hm1 : 1 ≤ o.workerMemory) (hm2 : o.workerMemory ≤ 32)
    (hi : strContainsChar o.image ':' = true) :
    ∃ r, optionHandler o = Except.ok r ∧
      r.workerCores = 88/100 * min (o.workerCores / 2) 1 ∧
      r.workerCoresLimit = o.workerCores ∧
      r.workerMemory = 95/100 * o.workerMemory ∧
      r.workerMemoryLimit = o.workerMemory ∧
      r.workerCores ≤ r.workerCoresLimit ∧
      r.workerMemory ≤ r.workerMemoryLimit := by
  refine ⟨{ workerCores := ratMul (mkRat 88 100) (min (ratDiv o.workerCores 2) 1)
            workerCoresLimit := o.workerCores
            workerMemory := ratMul (mkRat 95 100) o.workerMemory
            workerMemoryLimit := o.workerMemory
            image := o.image
            environment := o.environment },
    by simp [optionHandler, hi], ?_, rfl, ?_, rfl, ?_, ?_⟩
  · show ratMul (mkRat 88 100) (min (ratDiv o.workerCores 2) 1) =
      88/100 * min (o.workerCores / 2) 1
    rw [ratMul_eq, ratDiv_eq, mkRat_88_100]
  · show ratMul (mkRat 95 100) o.workerMemory = 95/100 * o.workerMemory
    rw [ratMul_eq, mkRat_95_100]
  · show ratMul (mkRat 88 100) (min (ratDiv o.workerCores 2) 1) ≤ o.workerCores
    rw [ratMul_eq, ratDiv_eq, mkRat_88_100]
    have h1 : min (o.workerCores / 2) 1 ≤ 1 := min_le_right _ _
    have h2 : (0:ℚ) ≤ min (o.workerCores / 2) 1 :=
      le_min (by linarith) (by norm_num)
    nlinarith
  · show ratMul (mkRat 95 100) o.workerMemory ≤ o.workerMemory
    rw [ratMul_eq, mkRat_95_100]
    nlinarith

/-- Options for the C5 witness: 2 cores, 4 GiB, tagged image. -/
def optsC5 : ClusterOptions := ⟨2, 4, "repo/image:v1", []⟩

/-- Witness for `option_handler_requests_le_limits` at concrete in-range
options. -/
theorem option_handler_requests_le_limits_witness :
    (1 ≤ optsC5.workerCores ∧ optsC5.workerCores ≤ 16 ∧
      1 ≤ optsC5.workerMemory ∧ optsC5.workerMemory ≤ 32 ∧
      strContainsChar optsC5.image ':' = true) ∧
    ∃ r, optionHandler optsC5 = Except.ok r ∧
      r.workerCores = 88/100 * min (optsC5.workerCores / 2) 1 ∧
      r.workerCoresLimit = optsC5.workerCores ∧
      r.workerMemory = 95/100 * optsC5.workerMemory ∧
      r.workerMemoryLimit = optsC5.workerMemory ∧
      r.workerCores ≤ r.workerCoresLimit ∧
      r.workerMemory ≤ r.workerMemoryLimit :=
  ⟨⟨by decide, by decide, by decide, by decide, by decide⟩,
    option_handler_requests_le_limits optsC5 (by decide) (by decide)
      (by decide) (by decide) (by decide)⟩

/-! ## `get_item` (training notebook)

Source:
```
def get_item(label_item, sentinel_items, assets):
    assets = list(assets)
    labels = rioxarray.open_rasterio(label_item.assets["labels"].href).squeeze()
    sentinel_item = find_match(label_item, sentinel_items)
    bounds = tuple(round(x, 0) for x in labels.rio.bounds())
    data = (
        stackstac.stack(
            planetary_computer.sign(sentinel_item).to_dict(),
            assets=assets, dtype="float32", resolution=10,
            bounds=bounds, epsg=labels.rio.crs.to_epsg(),
        ).squeeze().compute(scheduler="single-threaded")
    )
    assert data.shape[1:] == labels.shape
    data = data.assign_coords(x=labels.x.data, y=labels.y.data)
    data /= 4000
    data = np.clip(data, 0, 1)
    return data, labels.astype("int64")
```
The raster and catalog I/O (`rioxarray.open_rasterio(...).squeeze()`, and
`planetary_computer.sign` plus `stackstac.stack(...).squeeze().compute()`
with the rounded bounds) are third-party library calls, abstracted as
oracle parameters.  The coordinate relabelling `assign_coords` does not
touch the array values or shape and is not modelled.  The failing
`assert` (an `AssertionError`) and a propagated `IndexError` from
`find_match` are both modelled as `none`. -/

/-- numpy dtype tags for the arrays the notebook manipulates. -/
inductive Dtype
  | uint8
  | int32
  | int64
  | float32
  deriving Repr, DecidableEq

/-- The label chip loaded by `rioxarray.open_rasterio(...).squeeze()`:
a two-dimensional integer raster carrying a dtype tag. -/
structure LabelRaster where
  height : Nat
  width : Nat
  values : List (List ℤ)
  dtype : Dtype
  deriving Repr, DecidableEq

/-- `.astype(d)`: retag the dtype.  For the crop-code rasters the cast to
the wider `int64` never changes a value, so values are kept as they are. -/
def LabelRaster.astype (r : LabelRaster) (d : Dtype) : LabelRaster :=
  { r with dtype := d }

/-- The multi-band imagery DataArray produced by
`stackstac.stack(...).squeeze().compute()`: band-major three-dimensional
float values, embedded as exact rationals. -/
structure Stack where
  bands : Nat
  height : Nat
  width : Nat
  values : List (List (List ℚ))
  deriving Repr, DecidableEq

/-- `data /= 4000`, elementwise. -/
def Stack.scaleBy4000 (s : Stack) : Stack :=
  { s with values :=
      s.values.map fun band => band.map fun row => row.map fun v => ratDiv v 4000 }

/-- `np.clip(data, 0, 1)`, elementwise `min(1, max(v, 0))`. -/
def Stack.clip01 (s : Stack) : Stack :=
  { s with values :=
      s.values.map fun band => band.map fun row => row.map fun v => min 1 (max 0 v) }

/-- `get_item`: load the label chip, pick the sentinel scene with
`find_match`, load its assets cropped to the chip, check the shapes
match, scale by 4000 and clip to `[0, 1]`, and return the imagery
together with the labels cast to `int64`. -/
def getItem (openRasterio : LabelItem → LabelRaster)
    (stackAssets : SentinelItem → List String → LabelRaster → Stack)
    (labelItem : LabelItem) (sentinelItems : List SentinelItem)
    (assets : List String) : Option (Stack × LabelRaster) :=
  let labels := openRasterio labelItem
  match findMatch labelItem sentinelItems with
  | none => none
  | some sentinelItem =>
    let data := stackAssets sentinelItem assets labels
    if data.height = labels.height ∧ data.width = labels.width then
      some (data.scaleBy4000.clip01, labels.astype Dtype.int64)
    else
      none

/-! ### Claim C6 -/

/-- C6: whenever `get_item` returns, every element of the returned
imagery array lies in the closed interval `[0, 1]`, its spatial shape
equals the label chip's shape, and the returned label array has dtype
`int64`. -/
theorem get_item_output_normalized
    (openRasterio : LabelItem → LabelRaster)
    (stackAssets : SentinelItem → List String → LabelRaster → Stack)
    (labelItem : LabelItem) (sentinelItems : List SentinelItem)
    (assets : List String) (d : Stack) (l : LabelRaster)
    (h : getItem openRasterio stackAssets labelItem sentinelItems assets =
      some (d, l)) :
    (∀ band ∈ d.values, ∀ row ∈ band, ∀ v ∈ row, 0 ≤ v ∧ v ≤ 1) ∧
    d.height = (openRasterio labelItem).height ∧
    d.width = (openRasterio labelItem).width ∧
    l.dtype = Dtype.int64 := by
  rcases hfm : findMatch labelItem sentinelItems with _ | st
  · simp only [getItem, hfm] at h
    exact absurd h (by simp)
  · simp only [getItem, hfm] at h
    split at h
    · next hsh =>
      rw [Option.some.injEq, Prod.mk.injEq] at h
      obtain ⟨hd, hl⟩ := h
      subst hd
      subst hl
      refine ⟨?_, ?_, ?_, rfl⟩
      · intro band hb row hr v hv
        simp only [Stack.clip01, List.mem_map] at hb
        obtain ⟨band₀, -, rfl⟩ := hb
        simp only [List.mem_map] at hr
        obtain ⟨row₀, -, rfl⟩ := hr
        simp only [List.mem_map] at hv
        obtain ⟨v₀, -, rfl⟩ := hv
        exact ⟨le_min (by norm_num) (le_max_left 0 v₀), min_le_left 1 _⟩
      · simpa [Stack.clip01, Stack.scaleBy4000] using hsh.1
      · simpa [Stack.clip01, Stack.scaleBy4000] using hsh.2
    · next =>
      simp at h

/-- Concrete label chip for the C6 witness. -/
def lblC6 : LabelItem := ⟨⟨0, 0, 2, 2⟩, "chip-c6"⟩

/-- Concrete sentinel scene fully covering `lblC6`. -/
def sentinelC6 : SentinelItem := ⟨⟨0, 0, 2, 2⟩, 7⟩

/-- Concrete 2×2 label raster returned by the rioxarray oracle. -/
def rasterC6 : LabelRaster := ⟨2, 2, [[0, 1], [2, 3]], Dtype.uint8⟩

/-- Concrete 1-band 2×2 imagery returned by the stackstac oracle. -/
def stackC6 : Stack := ⟨1, 2, 2, [[[0, 8000], [2000, 4000]]]⟩

/-- The imagery `get_item` returns on the C6 witness input:
`[0, 8000, 2000, 4000] / 4000` clipped to `[0, 1]`. -/
def outStackC6 : Stack := ⟨1, 2, 2, [[[0, 1], [mkRat 1 2, 1]]]⟩

/-- The labels `get_item` returns on the C6 witness input. -/
def outLabelsC6 : LabelRaster := ⟨2, 2, [[0, 1], [2, 3]], Dtype.int64⟩

/-- Witness for `get_item_output_normalized` at concrete oracles and
items. -/
theorem get_item_output_normalized_witness :
    getItem (fun _ => rasterC6) (fun _ _ _ => stackC6) lblC6 [sentinelC6]
        ["B03", "B04", "B05"] = some (outStackC6, outLabelsC6) ∧
    ((∀ band ∈ outStackC6.values, ∀ row ∈ band, ∀ v ∈ row, 0 ≤ v ∧ v ≤ 1) ∧
      outStackC6.height = rasterC6.height ∧
      outStackC6.width = rasterC6.width ∧
      outLabelsC6.dtype = Dtype.int64) :=
  ⟨by decide,
    get_item_output_normalized (fun _ => rasterC6) (fun _ _ _ => stackC6)
      lblC6 [sentinelC6] ["B03", "B04", "B05"] outStackC6 outLabelsC6
      (by decide)⟩

/-! ### Claim C2 -/

/-- `get_item` fails in exactly two ways: `find_match` raised
`IndexError` (the library-default failure of `[0]` on an empty list), or
the repository's own `assert data.shape[1:] == labels.shape` raised
`AssertionError` because the loaded imagery's spatial shape differs from
the label chip's. -/
theorem getItem_none_iff
    (openRasterio : LabelItem → LabelRaster)
    (stackAssets : SentinelItem → List String → LabelRaster → Stack)
    (labelItem : LabelItem) (sentinelItems : List SentinelItem)
    (assets : List String) :
    getItem openRasterio stackAssets labelItem sentinelItems assets = none ↔
      findMatch labelItem sentinelItems = none ∨
      ∃ st, findMatch labelItem sentinelItems = some st ∧
        ¬((stackAssets st assets (openRasterio labelItem)).height =
            (openRasterio labelItem).height ∧
          (stackAssets st assets (openRasterio labelItem)).width =
            (openRasterio labelItem).width) := by
  rcases hfm : findMatch labelItem sentinelItems with _ | st
  · simp only [getItem, hfm]
    simp
  · simp only [getItem, hfm]
    split
    · next hsh =>
      constructor
      · intro h
        cases h
      · rintro (h | ⟨st', hst', hns⟩)
        · cases h
        · rw [Option.some.injEq] at hst'
          subst hst'
          exact absurd hsh hns
    · next hsh =>
      constructor
      · intro _
        exact Or.inr ⟨st, rfl, hsh⟩
      · intro _
        rfl

/-- C2 amended: the repository defines no error taxonomy or recovery
policy, and beyond library defaults its own code raises in exactly two
places: `option_handler` raises
`ValueError("When specifying an image you must also provide a tag")`
precisely when the requested image string contains no `':'`, and
`get_item`'s `assert` raises `AssertionError` precisely when the loaded
imagery's spatial shape differs from the label chip's (its only other
failure is the propagated library-default `IndexError` from
`find_match`); nothing is caught, classified or retried anywhere in
repository code. -/
theorem repo_error_paths_exactly
    (options : ClusterOptions)
    (openRasterio : LabelItem → LabelRaster)
    (stackAssets : SentinelItem → List String → LabelRaster → Stack)
    (labelItem : LabelItem) (sentinelItems : List SentinelItem)
    (assets : List String) :
    (∀ e, optionHandler options = Except.error e →
      e = "When specifying an image you must also provide a tag") ∧
    (exceptIsOk (optionHandler options) = strContainsChar options.image ':') ∧
    (getItem openRasterio stackAssets labelItem sentinelItems assets = none ↔
      findMatch labelItem sentinelItems = none ∨
      ∃ st, findMatch labelItem sentinelItems = some st ∧
        ¬((stackAssets st assets (openRasterio labelItem)).height =
            (openRasterio labelItem).height ∧
          (stackAssets st assets (openRasterio labelItem)).width =
            (openRasterio labelItem).width)) :=
  ⟨(option_handler_error_message options).1,
   (option_handler_error_message options).2,
   getItem_none_iff openRasterio stackAssets labelItem sentinelItems assets⟩

/-- Witness for `repo_error_paths_exactly` at the concrete untagged
options and the concrete C6 oracles and items. -/
theorem repo_error_paths_exactly_witness :
    (∀ e, optionHandler badImageOpts = Except.error e →
      e = "When specifying an image you must also provide a tag") ∧
    (exceptIsOk (optionHandler badImageOpts) =
      strContainsChar badImageOpts.image ':') ∧
    (getItem (fun _ => rasterC6) (fun _ _ _ => stackC6) lblC6 [sentinelC6]
        ["B03", "B04", "B05"] = none ↔
      findMatch lblC6 [sentinelC6] = none ∨
      ∃ st, findMatch lblC6 [sentinelC6] = some st ∧
        ¬(stackC6.height = rasterC6.height ∧ stackC6.width = rasterC6.width)) :=
  repo_error_paths_exactly badImageOpts (fun _ => rasterC6)
    (fun _ _ _ => stackC6) lblC6 [sentinelC6] ["B03", "B04", "B05"]

/-! ## Parallel scene loading (training notebook)

Source:
```
get_item_ = dask.delayed(get_item, nout=2)
assets = ("B03", "B04", "B05")
Xys = [get_item_(label_item, sentinel_items, assets) for label_item in label_items]
Xys = dask.persist(*Xys)
Xys = dask.compute(*Xys)
```
`dask.delayed` wraps each pure `get_item` call as a task; `persist` and
`compute` hand the task list to dask's scheduler, which executes the
tasks in an order of its own choosing and gathers the results back in
task order.  The scheduler is third-party: we model it as an arbitrary
execution order over the task indices, so the refinement theorem
quantifies over every schedule dask might choose.  The repository adds
no scheduling, locking or cancellation logic of its own — the task list
is a plain list comprehension, translated as a map. -/

/-- Execute the delayed tasks (`f` applied to the task's argument) in the
scheduler's chosen `order`, recording completions as `(index, result)`
pairs in completion order.  Indices outside the task list are skipped. -/
def runTasks {α β : Type} (f : α → β) (xs : List α) (order : List Nat) :
    List (Nat × β) :=
  order.filterMap fun i => xs[i]?.map fun x => (i, f x)

/-- Look up the result of task `i` among the completed tasks. -/
def taskResult {β : Type} (results : List (Nat × β)) (i : Nat) : Option β :=
  (results.find? fun p => p.1 == i).map Prod.snd

/-- Gather the results of tasks `i, i+1, ..., i+k-1`, failing if any is
missing. -/
def gatherFrom {β : Type} (results : List (Nat × β)) : Nat → Nat → Option (List β)
  | _, 0 => some []
  | i, k + 1 =>
    match taskResult results i with
    | none => none
    | some b => (gatherFrom results (i + 1) k).map fun bs => b :: bs

/-- `dask.persist` followed by `dask.compute` on the list of delayed
tasks, under scheduler execution `order`: run every task, then gather
the results in task order. -/
def daskCompute {α β : Type} (f : α → β) (xs : List α) (order : List Nat) :
    Option (List β) :=
  gatherFrom (runTasks f xs order) 0 xs.length

theorem taskResult_runTasks {α β : Type} (f : α → β) (xs : List α) :
    ∀ (order : List Nat) (i : Nat) (x : α), xs[i]? = some x → i ∈ order →
      taskResult (runTasks f xs order) i = some (f x) := by
  intro order
  induction order with
  | nil =>
    intro i x _ hmem
    simp at hmem
  | cons j rest ih =>
    intro i x hx hmem
    rcases hj : xs[j]? with _ | y
    · have hij : i ≠ j := by
        intro hij
        rw [hij, hj] at hx
        cases hx
      have hrest : i ∈ rest := by
        rcases List.mem_cons.mp hmem with rfl | hr
        · exact absurd rfl hij
        · exact hr
      have hskip : runTasks f xs (j :: rest) = runTasks f xs rest := by
        simp [runTasks, hj]
      rw [hskip]
      exact ih i x hx hrest
    · have hcons : runTasks f xs (j :: rest) = (j, f y) :: runTasks f xs rest := by
        simp [runTasks, hj]
      rw [hcons]
      by_cases hij : j = i
      · subst hij
        rw [hj] at hx
        cases hx
        simp [taskResult]
      · have hrest : i ∈ rest := by
          rcases List.mem_cons.mp hmem with rfl | hr
          · exact absurd rfl (Ne.symm hij)
          · exact hr
        have : taskResult ((j, f y) :: runTasks f xs rest) i =
            taskResult (runTasks f xs rest) i := by
          simp [taskResult, List.find?_cons, hij]
        rw [this]
        exact ih i x hx hrest

theorem gatherFrom_runTasks {α β : Type} (f : α → β) (xs : List α)
    (order : List Nat) (hcover : ∀ j, j < xs.length → j ∈ order) :
    ∀ (k i : Nat), i + k = xs.length →
      gatherFrom (runTasks f xs order) i k = some ((xs.drop i).map f) := by
  intro k
  induction k with
  | zero =>
    intro i hi
    rw [Nat.add_zero] at hi
    subst hi
    simp [gatherFrom, List.drop_length]
  | succ k ih =>
    intro i hi
    have hilt : i < xs.length := by omega
    have hx : xs[i]? = some xs[i] := List.getElem?_eq_getElem hilt
    rw [gatherFrom, taskResult_runTasks f xs order i xs[i] hx (hcover i hilt),
      ih (i + 1) (by omega)]
    have hdrop : (xs.drop i).map f = f xs[i] :: (xs.drop (i + 1)).map f := by
      rw [List.drop_eq_getElem_cons hilt, List.map_cons]
    simp [hdrop]

/-- Scheduler-independence of the pure task list: under any schedule
covering every task index, dask's compute returns exactly the sequential
map. -/
theorem daskCompute_eq_map {α β : Type} (f : α → β) (xs : List α)
    (order : List Nat) (hcover : ∀ j, j < xs.length → j ∈ order) :
    daskCompute f xs order = some (xs.map f) := by
  rw [daskCompute, gatherFrom_runTasks f xs order hcover xs.length 0 (by omega)]
  simp

/-! ### Claim C9 -/

/-- C9: the parallel scene loading delegates all concurrency to dask
with no repository scheduling/locking/cancellation logic: for every
scheduler execution order that runs each task, mapping `get_item` over
the label items via `dask.delayed` / `persist` / `compute` yields the
same list of results as applying `get_item` to each label item
sequentially in order. -/
theorem parallel_load_refines_sequential
    (openRasterio : LabelItem → LabelRaster)
    (stackAssets : SentinelItem → List String → LabelRaster → Stack)
    (labelItems : List LabelItem) (sentinelItems : List SentinelItem)
    (assets : List String) (order : List Nat)
    (hcover : ∀ j ∈ List.range labelItems.length, j ∈ order) :
    daskCompute
      (fun labelItem =>
        getItem openRasterio stackAssets labelItem sentinelItems assets)
      labelItems order =
    some (labelItems.map fun labelItem =>
      getItem openRasterio stackAssets labelItem sentinelItems assets) :=
  daskCompute_eq_map _ labelItems order
    (fun j hj => hcover j (List.mem_range.mpr hj))

/-- Concrete label items for the C9 witness: the third chip does not
overlap the sentinel scene enough, so its `get_item` task fails — the
out-of-order schedule must still reproduce the sequential results,
failures included. -/
def lblsC9 : List LabelItem :=
  [⟨⟨0, 0, 2, 2⟩, "c9-0"⟩, ⟨⟨0, 0, 2, 2⟩, "c9-1"⟩, ⟨⟨1, 1, 3, 3⟩, "c9-2"⟩]

/-- Witness for `parallel_load_refines_sequential`: the scrambled
schedule `[2, 0, 1]` yields the sequential result list. -/
theorem parallel_load_refines_sequential_witness :
    (∀ j ∈ List.range lblsC9.length, j ∈ [2, 0, 1]) ∧
    daskCompute
      (fun labelItem =>
        getItem (fun _ => rasterC6) (fun _ _ _ => stackC6) labelItem
          [sentinelC6] ["B03", "B04", "B05"])
      lblsC9 [2, 0, 1] =
    some (lblsC9.map fun labelItem =>
      getItem (fun _ => rasterC6) (fun _ _ _ => stackC6) labelItem
        [sentinelC6] ["B03", "B04", "B05"]) :=
  ⟨by decide,
    parallel_load_refines_sequential (fun _ => rasterC6) (fun _ _ _ => stackC6)
      lblsC9 [sentinelC6] ["B03", "B04", "B05"] [2, 0, 1] (by decide)⟩

/-! ## Deploy Makefile (`deploy/Makefile`)

Each recipe line is a shell command, embedded as its word list (backslash
line-continuations joined, `$(VAR)` references kept literally).  The
`# NC4as_T4_v3` recipe line of `userpools` is a shell comment — the shell
executes nothing for it — so it is not a command; the special `.PHONY`
line is make metadata declaring phony targets, not an exposed target. -/

/-- A shell command as its word list. -/
abbrev MakeCommand := List String

/-- A Makefile rule: a target name and its recipe's commands. -/
structure MakeRule where
  target : String
  commands : List MakeCommand
  deriving Repr, DecidableEq

/-- The deploy `Makefile`, rule by rule in file order. -/
def deployMakefile : List MakeRule := [
  { target := "group"
    commands := [
      ["az", "group", "create", "--name", "$(GROUP)", "--location", "$(LOCATION)"]] },
  { target := "cluster"
    commands := [
      ["az", "aks", "create", "--resource-group", "$(GROUP)", "--name", "$(CLUSTER)",
       "--generate-ssh-keys", "--node-count=1", "--nodepool-name", "core",
       "--nodepool-labels", "hub.jupyter.org/node-purpose=core"],
      ["az", "aks", "get-credentials", "--name", "$(CLUSTER)",
       "--resource-group", "$(GROUP)"]] },
  { target := "userpools"
    commands := [
      ["az", "aks", "nodepool", "add", "--name", "gpumanual",
       "--cluster-name", "$(CLUSTER)", "--resource-group", "$(GROUP)",
       "--node-vm-size", "Standard_NC4as_T4_v3", "--node-count", "0",
       "--aks-custom-headers", "UseGPUDedicatedVHD=true",
       "--labels", "hub.jupyter.org/node-purpose=user",
       "hub.jupyter.org/pool-name=user-alpha-pool", "computetype=gpu",
       "--node-taints", "hub.jupyter.org_dedicated=user:NoSchedule"]] },
  { target := "storage"
    commands := [
      ["az", "storage", "account", "create", "--name=$(STORAGE_ACCOUNT)",
       "--resource-group=$(GROUP)", "--location=$(LOCATION)"],
      ["az", "storage", "container", "create", "--name=esip2021",
       "--account-name=$(STORAGE_CONTAINER)", "--public-access", "blob"]] },
  { target := "hub"
    commands := [
      ["helm", "upgrade", "--wait", "--install", "--create-namespace",
       "dask", "dask/daskhub", "--version=2021.7.0", "--namespace=dhub",
       "--values=config.yaml", "--values=secrets.yaml"]] },
  { target := "scale"
    commands := [
      ["az", "aks", "nodepool", "scale", "--name=gpumanual",
       "--cluster-name=$(CLUSTER)", "--resource-group=$(GROUP)",
       "--node-count=NODE_COUNT"]] },
  { target := "clean"
    commands := [
      ["az", "group", "delete", "-n", "$(GROUP)"]] }]

/-- A command invokes the cloud CLI or the Kubernetes chart package
manager when its program word is `az` or `helm`. -/
def invokesAzOrHelm (c : MakeCommand) : Bool :=
  c.head? == some "az" || c.head? == some "helm"

/-! ### Claim C7 -/

/-- C7: the deploy Makefile exposes exactly the seven targets `group`,
`cluster`, `userpools`, `storage`, `hub`, `scale`, `clean`, and every
command in every target's recipe invokes either the cloud CLI (`az`) or
the Kubernetes chart package manager (`helm`). -/
theorem makefile_targets_and_tools :
    deployMakefile.map (fun r => r.target) =
      ["group", "cluster", "userpools", "storage", "hub", "scale", "clean"] ∧
    (deployMakefile.all fun r => r.commands.all invokesAzOrHelm) = true := by
  decide

/-! ## Helm values (`deploy/config.yaml`)

The values file configures the externally-defined `daskhub` chart (a
JupyterHub plus dask-gateway).  The embedded Python `option_handler` of
its `extraConfig` block is modelled above as `optionHandler`. -/

/-- `jupyterhub.singleuser.cpu`: numeric guarantee and limit. -/
structure CpuSpec where
  guarantee : Nat
  limit : Nat
  deriving Repr, DecidableEq

/-- `jupyterhub.singleuser.memory`: guarantee and limit strings. -/
structure MemorySpec where
  guarantee : String
  limit : String
  deriving Repr, DecidableEq

/-- `jupyterhub.singleuser.image`. -/
structure ImageSpec where
  name : String
  tag : String
  deriving Repr, DecidableEq

/-- `jupyterhub.singleuser`: the per-user server configuration. -/
structure SingleuserSpec where
  image : ImageSpec
  startTimeout : Nat
  cpu : CpuSpec
  memory : MemorySpec
  gpuLimit : Nat
  defaultUrl : String
  postStartCommand : List String
  extraEnv : List (String × String)
  deriving Repr, DecidableEq

/-- `jupyterhub.hub`: network policy switch and authenticator class. -/
structure HubSpec where
  networkPolicyEnabled : Bool
  authenticatorClass : String
  deriving Repr, DecidableEq

/-- `jupyterhub.proxy`. -/
structure ProxySpec where
  httpsEnabled : Bool
  hosts : List String
  letsencryptContactEmail : String
  dnsLabelName : String
  deriving Repr, DecidableEq

/-- One `matchExpressions` entry of a required node affinity. -/
structure MatchExpression where
  key : String
  operator : String
  values : List String
  deriving Repr, DecidableEq

/-- One worker pod toleration. -/
structure Toleration where
  key : String
  operator : String
  value : String
  effect : String
  deriving Repr, DecidableEq

/-- `dask-gateway.gateway.backend.worker.extraPodConfig`: scheduling
affinity and tolerations for dask workers. -/
structure WorkerPodConfig where
  requiredNodeAffinity : List MatchExpression
  tolerations : List Toleration
  deriving Repr, DecidableEq

/-- The whole values file (the parts the repository sets; secrets live in
the untracked `secrets.yaml`). -/
structure DeployConfig where
  proxy : ProxySpec
  hub : HubSpec
  singleuser : SingleuserSpec
  worker : WorkerPodConfig
  deriving Repr, DecidableEq

/-- `deploy/config.yaml`, value by value. -/
def configYaml : DeployConfig :=
  { proxy :=
      { httpsEnabled := true
        hosts := ["esip2021.westeurope.cloudapp.azure.com"]
        letsencryptContactEmail := "taugspurger@microsoft.com"
        dnsLabelName := "esip2021" }
    hub :=
      { networkPolicyEnabled := false
        authenticatorClass := "dummy" }
    singleuser :=
      { image :=
          { name := "mcr.microsoft.com/planetary-computer/gpu-pytorch"
            tag := "2021.07.13.0" }
        startTimeout := 1200
        cpu := { guarantee := 3, limit := 4 }
        memory := { guarantee := "12G", limit := "24G" }
        gpuLimit := 1
        defaultUrl := "/lab/tree/workshop/index.ipynb"
        postStartCommand :=
          ["/srv/conda/envs/notebook/bin/gitpuller",
           "https://github.com/TomAugspurger/esip-summer-2021-geospatial-ml",
           "main", "workshop"]
        extraEnv :=
          [("DASK_GATEWAY__CLUSTER__OPTIONS__IMAGE", "{JUPYTER_IMAGE_SPEC}"),
           ("DASK_DISTRIBUTED__DASHBOARD__LINK",
             "/user/{JUPYTERHUB_USER}/proxy/{port}/status"),
           ("DASK_LABEXTENSION__FACTORY__MODULE", "dask_gateway"),
           ("DASK_LABEXTENSION__FACTORY__CLASS", "GatewayCluster"),
           ("NVIDIA_DRIVER_CAPABILITIES", "compute,utility"),
           ("GDAL_DISABLE_READDIR_ON_OPEN", "EMPTY_DIR"),
           ("GDAL_HTTP_MERGE_CONSECUTIVE_RANGES", "YES"),
           ("GDAL_HTTP_MAX_RETRY", "5")] }
    worker :=
      { requiredNodeAffinity :=
          [{ key := "k8s.dask.org/dedicated", operator := "In",
             values := ["worker"] }]
        tolerations :=
          [{ key := "k8s.dask.org/dedicated", operator := "Equal",
             value := "worker", effect := "NoSchedule" },
           { key := "k8s.dask.org_dedicated", operator := "Equal",
             value := "worker", effect := "NoSchedule" },
           { key := "kubernetes.azure.com/scalesetpriority", operator := "Equal",
             value := "spot", effect := "NoSchedule" }] } }

/-! ### Claim C8 -/

/-- C8: the Helm values file configures, for the external multi-user
notebook server chart, the dummy authenticator class; per-user CPU
guarantee 3 and limit 4, memory guarantee `12G` and limit `24G`, and GPU
limit 1; a nonempty set of environment variables; and GPU/worker
scheduling: a required node affinity pinning dask workers to the worker
pool and tolerations for the dedicated and preemptible worker nodes. -/
theorem helm_values_configuration :
    configYaml.hub.authenticatorClass = "dummy" ∧
    configYaml.singleuser.cpu.guarantee = 3 ∧
    configYaml.singleuser.cpu.limit = 4 ∧
    configYaml.singleuser.memory.guarantee = "12G" ∧
    configYaml.singleuser.memory.limit = "24G" ∧
    configYaml.singleuser.gpuLimit = 1 ∧
    configYaml.singleuser.extraEnv ≠ [] ∧
    configYaml.worker.requiredNodeAffinity =
      [{ key := "k8s.dask.org/dedicated", operator := "In",
         values := ["worker"] }] ∧
    configYaml.worker.tolerations.length = 3 ∧
    (configYaml.worker.tolerations.all fun t => t.effect == "NoSchedule") = true := by
  decide

/-! ## Exploratory notebook flow (`crop-landcover-explore.ipynb`)

The exploratory notebook is a straight-line script.  We embed the
operation its code cells perform, in cell order, and the dependency
chain named by the specification: open the labels STAC catalog → fetch
an item → load its raster → search the Planetary Computer catalog →
reproject/crop the imagery → fit the off-the-shelf estimator. -/

/-- The operations performed by the exploratory notebook's code cells. -/
inductive ExploreStep
  | openLabelsCatalog
  | getItemLinks
  | fetchLabelItem
  | loadLabelRaster
  | fetchRasterValues
  | plotLabels
  | openPCClient
  | searchPlanetaryComputer
  | sortScenesByCloudCover
  | plotTileMap
  | signItem
  | reprojectCrop
  | assignCoords
  | stackPixels
  | trainTestSplit
  | fitEstimator
  | scoreEstimator
  | predictVisualize
  deriving Repr, DecidableEq

open ExploreStep in
/-- The notebook's operations in cell order (the `label_item` fetch is
performed twice in the source: once on its own and once again in the
raster-loading cell). -/
def exploreNotebookSteps : List ExploreStep :=
  [openLabelsCatalog, getItemLinks, fetchLabelItem,
   fetchLabelItem, loadLabelRaster, fetchRasterValues, plotLabels,
   openPCClient, searchPlanetaryComputer, sortScenesByCloudCover,
   plotTileMap, signItem, reprojectCrop, assignCoords,
   stackPixels, trainTestSplit, fitEstimator, scoreEstimator,
   predictVisualize]

open ExploreStep in
/-- The dependency chain stated by the specification, in order. -/
def coreChain : List ExploreStep :=
  [openLabelsCatalog, fetchLabelItem, loadLabelRaster,
   searchPlanetaryComputer, reprojectCrop, fitEstimator]

/-- Position of a step in the specification's dependency chain. -/
def chainIndex (s : ExploreStep) : Option Nat :=
  coreChain.indexOf? s

/-- `dependsOn x y`: step `x` depends on step `y` — both are in the
chain and `y` comes strictly earlier in it. -/
def dependsOn (x y : ExploreStep) : Bool :=
  match chainIndex x, chainIndex y with
  | some i, some j => j < i
  | _, _ => false

/-- No step of the list precedes a step it depends on. -/
def respectsDependencies : List ExploreStep → Bool
  | [] => true
  | x :: xs => xs.all (fun y => ! dependsOn x y) && respectsDependencies xs

/-! ### Claim C10 -/

/-- C10: the exploratory notebook performs its steps in the
specification's order — open the labels catalog, fetch an item, load its
raster, search the Planetary Computer catalog, reproject/crop, fit the
estimator — and no step precedes one it depends on in this chain. -/
theorem explore_notebook_order :
    (exploreNotebookSteps.filter fun s => coreChain.contains s).dedup =
      coreChain ∧
    respectsDependencies exploreNotebookSteps = true := by
  decide

end EsipGeoML
